import Mathlib

/-!
Shallow embedding of the SDL2 rendering backend and engine constants of
doukutsu-rs (files `src/framework/backend_sdl2.rs` and
`src/engine_constants.rs`), together with theorems settling the spec claims.

Floating-point screen/UV coordinates are embedded as rationals; the
comparisons, `min`/`max` selections and saturating integer casts that the
claims depend on are exact on the represented values.
-/

/-- `GameError` from `framework/error.rs` (only the two variants this backend
produces). -/
inductive GameError where
  | WindowError (msg : String)
  | RenderError (msg : String)
  deriving DecidableEq, Repr

/-- Truncation toward zero of a rational, as in Rust float-to-int casts. -/
def truncRat (q : ℚ) : Int :=
  if 0 ≤ q then ⌊q⌋ else ⌈q⌉

/-- Rust `f32 as i32`: saturating truncation to the 32-bit signed range. -/
def i32ofRat (q : ℚ) : Int :=
  if q < -2147483648 then -2147483648
  else if 2147483647 < q then 2147483647
  else truncRat q

/-- Rust `f32 as u32`: saturating truncation to the 32-bit unsigned range. -/
def u32ofRat (q : ℚ) : Nat :=
  if q ≤ 0 then 0
  else if (4294967295 : ℚ) < q then 4294967295
  else (⌊q⌋).toNat

/-- Rust `f32 as i16`: saturating truncation to the 16-bit signed range. -/
def i16ofRat (q : ℚ) : Int :=
  if q < -32768 then -32768
  else if 32767 < q then 32767
  else truncRat q

/-- Rust `f32::round`: nearest integer, ties away from zero. -/
def roundRat (q : ℚ) : ℚ :=
  if 0 ≤ q then (⌊q + 1/2⌋ : Int) else (-⌊-q + 1/2⌋ : Int)

/-- RGBA colour, four 8-bit channels (`common::Color`; `to_rgba` yields the
four channels). -/
structure Color where
  r : Nat
  g : Nat
  b : Nat
  a : Nat
  deriving DecidableEq, Repr

/-- `Rect<f32>` — axis-aligned rectangle with rational coordinates. -/
structure Rectq where
  left : ℚ
  top : ℚ
  right : ℚ
  bottom : ℚ
  deriving DecidableEq, Repr

/-- `Rect::width` = `right - left`. -/
def Rectq.width (r : Rectq) : ℚ := r.right - r.left

/-- `Rect::height` = `bottom - top`. -/
def Rectq.height (r : Rectq) : ℚ := r.bottom - r.top

/-- `sdl2::rect::Rect::new(x, y, w, h)` with integer fields. -/
structure SDLRect where
  x : Int
  y : Int
  w : Nat
  h : Nat
  deriving DecidableEq, Repr

/-- The native SDL blend modes this backend selects between. -/
inductive SDLBlendMode where
  | Blend
  | Add
  | Mod
  deriving DecidableEq, Repr

/-- The engine blend modes (`framework/graphics.rs::BlendMode`); the match in
`SDL2Renderer::set_blend_mode` is exhaustive over exactly these three
variants, so the enumeration has no others. -/
inductive BlendMode where
  | Alpha
  | Add
  | Multiply
  deriving DecidableEq, Repr

/-- `SDL2Renderer::set_blend_mode`'s mapping of engine blend modes to native
ones (`Add → Add`, `Alpha → Blend`, `Multiply → Mod`). -/
def blendModeMap (blend : BlendMode) : SDLBlendMode :=
  match blend with
  | BlendMode.Add => SDLBlendMode.Add
  | BlendMode.Alpha => SDLBlendMode.Blend
  | BlendMode.Multiply => SDLBlendMode.Mod

/-- `SDL2Renderer::set_blend_mode`: stores the mapped native mode in the
shared context and returns `Ok(())`. The context is represented by its
`blend_mode` field, the only part this operation touches. -/
def set_blend_mode (blendStored : SDLBlendMode) (blend : BlendMode) :
    SDLBlendMode × Except GameError Unit :=
  let _ := blendStored
  (blendModeMap blend, Except.ok ())

/-- `SpriteBatchCommand` from `framework/backend.rs`, as consumed by
`SDL2Texture::draw`. -/
inductive SpriteBatchCommand where
  | DrawRect (src dest : Rectq)
  | DrawRectTinted (src dest : Rectq) (color : Color)
  deriving DecidableEq, Repr

/-- One canvas blit issued by `SDL2Texture::draw`: the colour/alpha
modulation and blend mode set on the texture and the integer source and
destination rectangles passed to `canvas.copy`. -/
structure Blit where
  colR : Nat
  colG : Nat
  colB : Nat
  alpha : Nat
  blend : SDLBlendMode
  src : SDLRect
  dest : SDLRect
  deriving DecidableEq, Repr

/-- `sdl2::rect::Rect::new(r.left.round() as i32, r.top.round() as i32,
r.width().round() as u32, r.height().round() as u32)` as built by
`SDL2Texture::draw` for both source and destination rectangles. -/
def rectToSDL (r : Rectq) : SDLRect :=
  { x := i32ofRat (roundRat r.left)
    y := i32ofRat (roundRat r.top)
    w := u32ofRat (roundRat r.width)
    h := u32ofRat (roundRat r.height) }

/-- The blit a single buffered command produces in `SDL2Texture::draw`:
`DrawRect` uses white/255 modulation, `DrawRectTinted` the command's colour;
both use the renderer's current blend mode. -/
def commandToBlit (blend : SDLBlendMode) (command : SpriteBatchCommand) : Blit :=
  match command with
  | SpriteBatchCommand.DrawRect src dest =>
    { colR := 255, colG := 255, colB := 255, alpha := 255, blend := blend
      src := rectToSDL src, dest := rectToSDL dest }
  | SpriteBatchCommand.DrawRectTinted src dest color =>
    { colR := color.r, colG := color.g, colB := color.b, alpha := color.a
      blend := blend, src := rectToSDL src, dest := rectToSDL dest }

/-- `SDL2Texture`: dimensions, the optional native handle, and the buffered
sprite-batch commands. The native handle carries no data the claims consult,
so it is `Option Unit`. -/
structure SDL2Texture where
  texture : Option Unit
  width : Nat
  height : Nat
  commands : List SpriteBatchCommand
  deriving DecidableEq, Repr

/-- `SDL2Texture::dimensions`. -/
def SDL2Texture.dimensions (t : SDL2Texture) : Nat × Nat :=
  (t.width, t.height)

/-- `SDL2Texture::add`: `self.commands.push(command)`. -/
def SDL2Texture.add (t : SDL2Texture) (command : SpriteBatchCommand) : SDL2Texture :=
  { t with commands := t.commands ++ [command] }

/-- `SDL2Texture::clear`: `self.commands.clear()`. -/
def SDL2Texture.clear (t : SDL2Texture) : SDL2Texture :=
  { t with commands := [] }

/-- The loop body of `SDL2Texture::draw` over the command list. `copy` is the
outcome of each `canvas.copy` call (the SDL driver); a failing copy
early-returns `Err(RenderError(e))` via `?` after the blits already issued.
Returns the blits issued, in order, and the function result. -/
def drawLoop (copy : Blit → Except String Unit) (blend : SDLBlendMode) :
    List SpriteBatchCommand → List Blit × Except GameError Unit
  | [] => ([], Except.ok ())
  | command :: rest =>
    let b := commandToBlit blend command
    match copy b with
    | Except.error e => ([b], Except.error (GameError.RenderError e))
    | Except.ok () =>
      let (bs, res) := drawLoop copy blend rest
      (b :: bs, res)

/-- `SDL2Texture::draw`: with no native handle it returns `Ok(())` at once;
otherwise it iterates over `self.commands` issuing one blit each. The
returned texture is the receiver after the call — `draw` never writes
`commands`, `width`, `height` or `texture`. -/
def SDL2Texture.draw (copy : Blit → Except String Unit) (blend : SDLBlendMode)
    (t : SDL2Texture) : List Blit × Except GameError Unit × SDL2Texture :=
  match t.texture with
  | none => ([], Except.ok (), t)
  | some _ =>
    let (bs, res) := drawLoop copy blend t.commands
    (bs, res, t)

/-- The SDL platform scancodes (`sdl2::keyboard::Scancode`) that
`conv_scancode` matches explicitly, plus representatives of the variants its
final wildcard arm sends to `None` (`KpPeriod`, `Help`, `Menu`, `Undo`,
`Find`). -/
inductive SDLScancode where
  | A | B | C | D | E | F | G | H | I | J | K | L | M
  | N | O | P | Q | R | S | T | U | V | W | X | Y | Z
  | Num1 | Num2 | Num3 | Num4 | Num5 | Num6 | Num7 | Num8 | Num9 | Num0
  | Return | Escape | Backspace | Tab | Space | Minus | Equals
  | LeftBracket | RightBracket | Backslash | NonUsHash | Semicolon
  | Apostrophe | Grave | Comma | Period | Slash | CapsLock
  | F1 | F2 | F3 | F4 | F5 | F6 | F7 | F8 | F9 | F10 | F11 | F12
  | PrintScreen | ScrollLock | Pause | Insert | Home | PageUp | Delete
  | End | PageDown | Right | Left | Down | Up
  | NumLockClear | KpDivide | KpMultiply | KpMinus | KpPlus | KpEnter
  | Kp1 | Kp2 | Kp3 | Kp4 | Kp5 | Kp6 | Kp7 | Kp8 | Kp9 | Kp0
  | NonUsBackslash | Application | Power | KpEquals
  | F13 | F14 | F15 | F16 | F17 | F18 | F19 | F20 | F21 | F22 | F23 | F24
  | Stop | Cut | Copy | Paste | Mute | VolumeUp | VolumeDown | KpComma
  | SysReq | Return2
  | LCtrl | LShift | LAlt | LGui | RCtrl | RShift | RAlt | RGui
  | AudioNext | AudioPrev | AudioStop | AudioPlay | AudioMute
  | MediaSelect | Mail | Calculator | Sleep
  | KpPeriod | Help | Menu | Undo | Find
  deriving DecidableEq, Repr, Fintype

/-- The engine scancodes (`framework/keyboard.rs::ScanCode`) that appear as
targets of `conv_scancode`. -/
inductive ScanCode where
  | A | B | C | D | E | F | G | H | I | J | K | L | M
  | N | O | P | Q | R | S | T | U | V | W | X | Y | Z
  | Key1 | Key2 | Key3 | Key4 | Key5 | Key6 | Key7 | Key8 | Key9 | Key0
  | Return | Escape | Backspace | Tab | Space | Minus | Equals
  | LBracket | RBracket | Backslash | NonUsHash | Semicolon
  | Apostrophe | Grave | Comma | Period | Slash | Capslock
  | F1 | F2 | F3 | F4 | F5 | F6 | F7 | F8 | F9 | F10 | F11 | F12
  | Sysrq | Scrolllock | Pause | Insert | Home | PageUp | Delete
  | End | PageDown | Right | Left | Down | Up
  | Numlock | NumpadDivide | NumpadMultiply | NumpadSubtract | NumpadAdd
  | NumpadEnter
  | Numpad1 | Numpad2 | Numpad3 | Numpad4 | Numpad5 | Numpad6 | Numpad7
  | Numpad8 | Numpad9 | Numpad0
  | NonUsBackslash | Apps | Power | NumpadEquals
  | F13 | F14 | F15 | F16 | F17 | F18 | F19 | F20 | F21 | F22 | F23 | F24
  | Stop | Cut | Copy | Paste | Mute | VolumeUp | VolumeDown | NumpadComma
  | LControl | LShift | LAlt | LWin | RControl | RShift | RAlt | RWin
  | NextTrack | PrevTrack | MediaStop | PlayPause | MediaSelect
  | Mail | Calculator | Sleep
  deriving DecidableEq, Repr, Fintype

/-- `conv_scancode` from `backend_sdl2.rs`: the platform-to-engine scancode
translation, arm for arm; the final wildcard arm returns `None`. -/
def conv_scancode (code : SDLScancode) : Option ScanCode :=
  match code with
  | SDLScancode.A => some ScanCode.A
  | SDLScancode.B => some ScanCode.B
  | SDLScancode.C => some ScanCode.C
  | SDLScancode.D => some ScanCode.D
  | SDLScancode.E => some ScanCode.E
  | SDLScancode.F => some ScanCode.F
  | SDLScancode.G => some ScanCode.G
  | SDLScancode.H => some ScanCode.H
  | SDLScancode.I => some ScanCode.I
  | SDLScancode.J => some ScanCode.J
  | SDLScancode.K => some ScanCode.K
  | SDLScancode.L => some ScanCode.L
  | SDLScancode.M => some ScanCode.M
  | SDLScancode.N => some ScanCode.N
  | SDLScancode.O => some ScanCode.O
  | SDLScancode.P => some ScanCode.P
  | SDLScancode.Q => some ScanCode.Q
  | SDLScancode.R => some ScanCode.R
  | SDLScancode.S => some ScanCode.S
  | SDLScancode.T => some ScanCode.T
  | SDLScancode.U => some ScanCode.U
  | SDLScancode.V => some ScanCode.V
  | SDLScancode.W => some ScanCode.W
  | SDLScancode.X => some ScanCode.X
  | SDLScancode.Y => some ScanCode.Y
  | SDLScancode.Z => some ScanCode.Z
  | SDLScancode.Num1 => some ScanCode.Key1
  | SDLScancode.Num2 => some ScanCode.Key2
  | SDLScancode.Num3 => some ScanCode.Key3
  | SDLScancode.Num4 => some ScanCode.Key4
  | SDLScancode.Num5 => some ScanCode.Key5
  | SDLScancode.Num6 => some ScanCode.Key6
  | SDLScancode.Num7 => some ScanCode.Key7
  | SDLScancode.Num8 => some ScanCode.Key8
  | SDLScancode.Num9 => some ScanCode.Key9
  | SDLScancode.Num0 => some ScanCode.Key0
  | SDLScancode.Return => some ScanCode.Return
  | SDLScancode.Escape => some ScanCode.Escape
  | SDLScancode.Backspace => some ScanCode.Backspace
  | SDLScancode.Tab => some ScanCode.Tab
  | SDLScancode.Space => some ScanCode.Space
  | SDLScancode.Minus => some ScanCode.Minus
  | SDLScancode.Equals => some ScanCode.Equals
  | SDLScancode.LeftBracket => some ScanCode.LBracket
  | SDLScancode.RightBracket => some ScanCode.RBracket
  | SDLScancode.Backslash => some ScanCode.Backslash
  | SDLScancode.NonUsHash => some ScanCode.NonUsHash
  | SDLScancode.Semicolon => some ScanCode.Semicolon
  | SDLScancode.Apostrophe => some ScanCode.Apostrophe
  | SDLScancode.Grave => some ScanCode.Grave
  | SDLScancode.Comma => some ScanCode.Comma
  | SDLScancode.Period => some ScanCode.Period
  | SDLScancode.Slash => some ScanCode.Slash
  | SDLScancode.CapsLock => some ScanCode.Capslock
  | SDLScancode.F1 => some ScanCode.F1
  | SDLScancode.F2 => some ScanCode.F2
  | SDLScancode.F3 => some ScanCode.F3
  | SDLScancode.F4 => some ScanCode.F4
  | SDLScancode.F5 => some ScanCode.F5
  | SDLScancode.F6 => some ScanCode.F6
  | SDLScancode.F7 => some ScanCode.F7
  | SDLScancode.F8 => some ScanCode.F8
  | SDLScancode.F9 => some ScanCode.F9
  | SDLScancode.F10 => some ScanCode.F10
  | SDLScancode.F11 => some ScanCode.F11
  | SDLScancode.F12 => some ScanCode.F12
  | SDLScancode.PrintScreen => some ScanCode.Sysrq
  | SDLScancode.ScrollLock => some ScanCode.Scrolllock
  | SDLScancode.Pause => some ScanCode.Pause
  | SDLScancode.Insert => some ScanCode.Insert
  | SDLScancode.Home => some ScanCode.Home
  | SDLScancode.PageUp => some ScanCode.PageUp
  | SDLScancode.Delete => some ScanCode.Delete
  | SDLScancode.End => some ScanCode.End
  | SDLScancode.PageDown => some ScanCode.PageDown
  | SDLScancode.Right => some ScanCode.Right
  | SDLScancode.Left => some ScanCode.Left
  | SDLScancode.Down => some ScanCode.Down
  | SDLScancode.Up => some ScanCode.Up
  | SDLScancode.NumLockClear => some ScanCode.Numlock
  | SDLScancode.KpDivide => some ScanCode.NumpadDivide
  | SDLScancode.KpMultiply => some ScanCode.NumpadMultiply
  | SDLScancode.KpMinus => some ScanCode.NumpadSubtract
  | SDLScancode.KpPlus => some ScanCode.NumpadAdd
  | SDLScancode.KpEnter => some ScanCode.NumpadEnter
  | SDLScancode.Kp1 => some ScanCode.Numpad1
  | SDLScancode.Kp2 => some ScanCode.Numpad2
  | SDLScancode.Kp3 => some ScanCode.Numpad3
  | SDLScancode.Kp4 => some ScanCode.Numpad4
  | SDLScancode.Kp5 => some ScanCode.Numpad5
  | SDLScancode.Kp6 => some ScanCode.Numpad6
  | SDLScancode.Kp7 => some ScanCode.Numpad7
  | SDLScancode.Kp8 => some ScanCode.Numpad8
  | SDLScancode.Kp9 => some ScanCode.Numpad9
  | SDLScancode.Kp0 => some ScanCode.Numpad0
  | SDLScancode.NonUsBackslash => some ScanCode.NonUsBackslash
  | SDLScancode.Application => some ScanCode.Apps
  | SDLScancode.Power => some ScanCode.Power
  | SDLScancode.KpEquals => some ScanCode.NumpadEquals
  | SDLScancode.F13 => some ScanCode.F13
  | SDLScancode.F14 => some ScanCode.F14
  | SDLScancode.F15 => some ScanCode.F15
  | SDLScancode.F16 => some ScanCode.F16
  | SDLScancode.F17 => some ScanCode.F17
  | SDLScancode.F18 => some ScanCode.F18
  | SDLScancode.F19 => some ScanCode.F19
  | SDLScancode.F20 => some ScanCode.F20
  | SDLScancode.F21 => some ScanCode.F21
  | SDLScancode.F22 => some ScanCode.F22
  | SDLScancode.F23 => some ScanCode.F23
  | SDLScancode.F24 => some ScanCode.F24
  | SDLScancode.Stop => some ScanCode.Stop
  | SDLScancode.Cut => some ScanCode.Cut
  | SDLScancode.Copy => some ScanCode.Copy
  | SDLScancode.Paste => some ScanCode.Paste
  | SDLScancode.Mute => some ScanCode.Mute
  | SDLScancode.VolumeUp => some ScanCode.VolumeUp
  | SDLScancode.VolumeDown => some ScanCode.VolumeDown
  | SDLScancode.KpComma => some ScanCode.NumpadComma
  | SDLScancode.SysReq => some ScanCode.Sysrq
  | SDLScancode.Return2 => some ScanCode.NumpadEnter
  | SDLScancode.LCtrl => some ScanCode.LControl
  | SDLScancode.LShift => some ScanCode.LShift
  | SDLScancode.LAlt => some ScanCode.LAlt
  | SDLScancode.LGui => some ScanCode.LWin
  | SDLScancode.RCtrl => some ScanCode.RControl
  | SDLScancode.RShift => some ScanCode.RShift
  | SDLScancode.RAlt => some ScanCode.RAlt
  | SDLScancode.RGui => some ScanCode.RWin
  | SDLScancode.AudioNext => some ScanCode.NextTrack
  | SDLScancode.AudioPrev => some ScanCode.PrevTrack
  | SDLScancode.AudioStop => some ScanCode.MediaStop
  | SDLScancode.AudioPlay => some ScanCode.PlayPause
  | SDLScancode.AudioMute => some ScanCode.Mute
  | SDLScancode.MediaSelect => some ScanCode.MediaSelect
  | SDLScancode.Mail => some ScanCode.Mail
  | SDLScancode.Calculator => some ScanCode.Calculator
  | SDLScancode.Sleep => some ScanCode.Sleep
  | _ => none

/-- `common::Direction`. Modelled from the spec: the direction enumeration is
outside the provided sources; only distinct variants matter here and
`defaults` uses `Direction::Right`. -/
inductive Direction where
  | Left
  | Up
  | Right
  | Bottom
  deriving DecidableEq, Repr

/-- `Rect<usize>` — axis-aligned rectangle with natural-number coordinates,
as used by the constants table. -/
structure RectN where
  left : Nat
  top : Nat
  right : Nat
  bottom : Nat
  deriving DecidableEq, Repr

/-- `PhysicsConsts` from `engine_constants.rs` (all fields `isize`). -/
structure PhysicsConsts where
  max_dash : Int
  max_move : Int
  gravity_ground : Int
  gravity_air : Int
  dash_ground : Int
  dash_air : Int
  resist : Int
  jump : Int
  deriving DecidableEq, Repr

/-- `BoosterConsts` from `engine_constants.rs`. -/
structure BoosterConsts where
  b2_0_up : Int
  b2_0_up_nokey : Int
  b2_0_down : Int
  b2_0_left : Int
  b2_0_right : Int
  deriving DecidableEq, Repr

/-- `MyCharConsts` from `engine_constants.rs`; the two `[Rect<usize>; 12]`
animation arrays are embedded as lists. -/
structure MyCharConsts where
  cond : Nat
  flags : Nat
  equip : Nat
  direction : Direction
  view : RectN
  hit : RectN
  life : Nat
  max_life : Nat
  unit : Nat
  air_physics : PhysicsConsts
  water_physics : PhysicsConsts
  animations_left : List RectN
  animations_right : List RectN
  deriving DecidableEq, Repr

/-- `EngineConstants`; `tex_sizes: HashMap<String, (usize, usize)>` is
embedded as its association list in the order the `hashmap!` literal lists
the entries. -/
structure EngineConstants where
  my_char : MyCharConsts
  booster : BoosterConsts
  tex_sizes : List (String × Nat × Nat)
  deriving DecidableEq, Repr

/-- The manual `impl Clone for EngineConstants`: copies `my_char` and
`booster` (both `Copy`) and clones `tex_sizes`. -/
def EngineConstants.clone (c : EngineConstants) : EngineConstants :=
  { my_char := c.my_char
    booster := c.booster
    tex_sizes := c.tex_sizes }

/-- `EngineConstants::defaults()`; the nullary Rust function is embedded as a
function of `Unit` so that determinism across calls is expressible. -/
def EngineConstants.defaults (u : Unit) : EngineConstants :=
  let _ := u
  { my_char :=
    { cond := 0x80
      flags := 0
      equip := 0
      direction := Direction.Right
      view := { left := 8 * 0x200, top := 8 * 0x200, right := 8 * 0x200, bottom := 8 * 0x200 }
      hit := { left := 5 * 0x200, top := 8 * 0x200, right := 5 * 0x200, bottom := 8 * 0x200 }
      life := 3
      max_life := 3
      unit := 0
      air_physics :=
      { max_dash := 0x32c
        max_move := 0x5ff
        gravity_air := 0x20
        gravity_ground := 0x50
        dash_air := 0x20
        dash_ground := 0x55
        resist := 0x33
        jump := 0x500 }
      water_physics :=
      { max_dash := 0x196
        max_move := 0x2ff
        gravity_air := 0x10
        gravity_ground := 0x28
        dash_air := 0x10
        dash_ground := 0x2a
        resist := 0x19
        jump := 0x280 }
      animations_left :=
      [ { left := 0, top := 0, right := 16, bottom := 16 }
      , { left := 16, top := 0, right := 32, bottom := 16 }
      , { left := 0, top := 0, right := 16, bottom := 16 }
      , { left := 32, top := 0, right := 48, bottom := 16 }
      , { left := 0, top := 0, right := 16, bottom := 16 }
      , { left := 48, top := 0, right := 64, bottom := 16 }
      , { left := 64, top := 0, right := 80, bottom := 16 }
      , { left := 48, top := 0, right := 64, bottom := 16 }
      , { left := 80, top := 0, right := 96, bottom := 16 }
      , { left := 48, top := 0, right := 64, bottom := 16 }
      , { left := 96, top := 0, right := 112, bottom := 16 }
      , { left := 112, top := 0, right := 128, bottom := 16 } ]
      animations_right :=
      [ { left := 0, top := 16, right := 16, bottom := 32 }
      , { left := 16, top := 16, right := 32, bottom := 32 }
      , { left := 0, top := 16, right := 16, bottom := 32 }
      , { left := 32, top := 16, right := 48, bottom := 32 }
      , { left := 0, top := 16, right := 16, bottom := 32 }
      , { left := 48, top := 16, right := 64, bottom := 32 }
      , { left := 64, top := 16, right := 80, bottom := 32 }
      , { left := 48, top := 16, right := 64, bottom := 32 }
      , { left := 80, top := 16, right := 96, bottom := 32 }
      , { left := 48, top := 16, right := 64, bottom := 32 }
      , { left := 96, top := 16, right := 112, bottom := 32 }
      , { left := 112, top := 16, right := 128, bottom := 32 } ] }
    booster :=
    { b2_0_up := -0x5ff
      b2_0_up_nokey := -0x5ff
      b2_0_down := 0x5ff
      b2_0_left := -0x5ff
      b2_0_right := 0x5ff }
    tex_sizes :=
    [ ("ArmsImage", 256, 16)
    , ("Arms", 320, 200)
    , ("bk0", 64, 64)
    , ("bkBlack", 64, 64)
    , ("bkBlue", 64, 64)
    , ("bkFall", 64, 64)
    , ("bkFog", 320, 240)
    , ("bkFog480fix", 480, 272)
    , ("bkGard", 48, 64)
    , ("bkGray", 64, 64)
    , ("bkGreen", 64, 64)
    , ("bkHellish", 320, 240)
    , ("bkHellish480fix", 480, 272)
    , ("bkLight", 320, 240)
    , ("bkLight480fix", 480, 272)
    , ("bkMaze", 64, 64)
    , ("bkMoon", 320, 240)
    , ("bkMoon480fix", 480, 272)
    , ("bkRed", 32, 32)
    , ("bkSunset", 320, 240)
    , ("bkSunset480fix", 480, 272)
    , ("bkWater", 32, 48)
    , ("Bullet", 320, 176)
    , ("Caret", 320, 240)
    , ("casts", 320, 240)
    , ("Face", 288, 240)
    , ("Face_0", 288, 240)
    , ("Face_1", 288, 240)
    , ("Face_2", 288, 240)
    , ("Fade", 256, 32)
    , ("ItemImage", 256, 128)
    , ("Loading", 64, 8)
    , ("MyChar", 200, 64)
    , ("Npc/Npc0", 32, 32)
    , ("Npc/NpcAlmo1", 320, 240)
    , ("Npc/NpcAlmo2", 320, 240)
    , ("Npc/NpcBallos", 320, 240)
    , ("Npc/NpcBllg", 320, 96)
    , ("Npc/NpcCemet", 320, 112)
    , ("Npc/NpcCent", 320, 192)
    , ("Npc/NpcCurly", 256, 80)
    , ("Npc/NpcDark", 160, 64)
    , ("Npc/NpcDr", 320, 240)
    , ("Npc/NpcEggs1", 320, 112)
    , ("Npc/NpcEggs2", 320, 128)
    , ("Npc/NpcFrog", 320, 240)
    , ("Npc/NpcGuest", 320, 184)
    , ("Npc/NpcHell", 320, 160)
    , ("Npc/NpcHeri", 320, 128)
    , ("Npc/NpcIronH", 320, 72)
    , ("Npc/NpcIsland", 320, 80)
    , ("Npc/NpcKings", 96, 48)
    , ("Npc/NpcMaze", 320, 192)
    , ("Npc/NpcMiza", 320, 240)
    , ("Npc/NpcMoon", 320, 128)
    , ("Npc/NpcOmg", 320, 120)
    , ("Npc/NpcPlant", 320, 48)
    , ("Npc/NpcPress", 320, 240)
    , ("Npc/NpcPriest", 320, 240)
    , ("Npc/NpcRavil", 320, 168)
    , ("Npc/NpcRed", 320, 144)
    , ("Npc/NpcRegu", 320, 240)
    , ("Npc/NpcSand", 320, 176)
    , ("Npc/NpcStream", 64, 32)
    , ("Npc/NpcSym", 320, 240)
    , ("Npc/NpcToro", 320, 144)
    , ("Npc/NpcTwinD", 320, 144)
    , ("Npc/NpcWeed", 320, 240)
    , ("Npc/NpcX", 320, 240)
    , ("Resource/BITMAP/Credit01", 160, 240)
    , ("Resource/BITMAP/Credit02", 160, 240)
    , ("Resource/BITMAP/Credit03", 160, 240)
    , ("Resource/BITMAP/Credit04", 160, 240)
    , ("Resource/BITMAP/Credit05", 160, 240)
    , ("Resource/BITMAP/Credit06", 160, 240)
    , ("Resource/BITMAP/Credit07", 160, 240)
    , ("Resource/BITMAP/Credit08", 160, 240)
    , ("Resource/BITMAP/Credit09", 160, 240)
    , ("Resource/BITMAP/Credit10", 160, 240)
    , ("Resource/BITMAP/Credit11", 160, 240)
    , ("Resource/BITMAP/Credit12", 160, 240)
    , ("Resource/BITMAP/Credit14", 160, 240)
    , ("Resource/BITMAP/Credit15", 160, 240)
    , ("Resource/BITMAP/Credit16", 160, 240)
    , ("Resource/BITMAP/Credit17", 160, 240)
    , ("Resource/BITMAP/Credit18", 160, 240)
    , ("Resource/BITMAP/pixel", 160, 16)
    , ("Resource/CURSOR/CURSOR_IKA", 32, 32)
    , ("Resource/CURSOR/CURSOR_NORMAL", 32, 32)
    , ("StageImage", 256, 16)
    , ("Stage/Prt0", 32, 32)
    , ("Stage/PrtAlmond", 256, 96)
    , ("Stage/PrtBarr", 256, 88)
    , ("Stage/PrtCave", 256, 80)
    , ("Stage/PrtCent", 256, 128)
    , ("Stage/PrtEggIn", 256, 80)
    , ("Stage/PrtEggs", 256, 240)
    , ("Stage/PrtEggX", 256, 240)
    , ("Stage/PrtFall", 256, 128)
    , ("Stage/PrtGard", 256, 97)
    , ("Stage/PrtHell", 256, 240)
    , ("Stage/PrtJail", 256, 128)
    , ("Stage/PrtLabo", 128, 64)
    , ("Stage/PrtMaze", 256, 160)
    , ("Stage/PrtMimi", 256, 160)
    , ("Stage/PrtOside", 256, 64)
    , ("Stage/PrtPens", 256, 64)
    , ("Stage/PrtRiver", 256, 96)
    , ("Stage/PrtSand", 256, 112)
    , ("Stage/PrtStore", 256, 112)
    , ("Stage/PrtWeed", 256, 128)
    , ("Stage/PrtWhite", 256, 240)
    , ("TextBox", 244, 144)
    , ("Title", 320, 48) ] }

/-- `set_raw_target` from `backend_sdl2.rs`: returns `Ok(())` when the
driver call `SDL_SetRenderTarget` returns 0, otherwise
`Err(RenderError(sdl2::get_error()))`. `driverRes` is the driver's return
value and `driverErr` the message `sdl2::get_error()` would yield. -/
def set_raw_target (driverRes : Int) (driverErr : String) : Except GameError Unit :=
  if driverRes = 0 then Except.ok ()
  else Except.error (GameError.RenderError driverErr)

/-- `SDL2Renderer::set_render_target`: in every branch it invokes
`set_raw_target` (with the texture's raw handle, or null when the handle or
the argument is absent), DISCARDS its result, and returns `Ok(())`. -/
def set_render_target (driverRes : Int) (driverErr : String)
    (texture : Option SDL2Texture) : Except GameError Unit :=
  match texture with
  | some t =>
    match t.texture with
    | some _ =>
      let _ := set_raw_target driverRes driverErr
      Except.ok ()
    | none =>
      let _ := set_raw_target driverRes driverErr
      Except.ok ()
  | none =>
    let _ := set_raw_target driverRes driverErr
    Except.ok ()

/-- The window sub-events distinguished by the frame loop. -/
inductive WinEvent where
  | Shown
  | Hidden
  | SizeChanged (w h : Int)
  | OtherWindow
  deriving DecidableEq, Repr

/-- The platform events distinguished by the frame loop (`sdl2::event::Event`
as matched in `SDL2EventLoop::run`; all unmatched events collapse into
`OtherEvent`). -/
inductive SDLEvent where
  | Quit
  | Window (w : WinEvent)
  | KeyDown (scancode : Option SDLScancode) (isRepeat : Bool)
  | KeyUp (scancode : Option SDLScancode)
  | OtherEvent
  deriving DecidableEq, Repr

/-- The externally observable calls the frame loop makes on its
collaborators (the imgui event handler, the `Game`, the scene, imgui frame
preparation), in program order. -/
inductive GameCall where
  | imguiHandleEvent
  | shutdownLatch
  | handleResize
  | keyDownEvent (k : ScanCode) (isRepeat : Bool)
  | updateCall
  | sceneInit
  | prepareFrame
  | drawCall
  deriving DecidableEq, Repr

/-- The loop-visible state: the `Game`/`SharedGameState`/`Context` fields the
frame loop reads or writes. `shutdown` is the latch; `keyboard` is the
keyboard-context bit per engine scancode; `displaySize` is imgui's
`io.display_size`. -/
structure LoopState where
  shutdown : Bool
  nextScene : Bool
  screenSize : ℚ × ℚ
  displaySize : ℚ × ℚ
  rendererPresent : Bool
  keyboard : ScanCode → Bool
  loops : Nat
  frameTime : ℚ

/-- One event dispatch in `SDL2EventLoop::run`: forwards the event to
`imgui_sdl2.handle_event`, then matches it. `Quit` calls `state.shutdown()`
(modelled from the spec: the call sets the shutdown latch). `SizeChanged`
sets `ctx.screen_size` to `(max(w,1), max(h,1))` as floats, sets imgui's
display size when a renderer is present, and calls `state.handle_resize`.
Key down translates through `conv_scancode`; when mapped it calls
`game.key_down_event` and sets the keyboard-context bit (modelled from the
spec: `set_key` sets the bit for that scancode). Key up clears the bit and
dispatches no per-key event. -/
def processEvent (st : LoopState) (ev : SDLEvent) : LoopState × List GameCall :=
  match ev with
  | SDLEvent.Quit =>
    ({ st with shutdown := true }, [GameCall.imguiHandleEvent, GameCall.shutdownLatch])
  | SDLEvent.Window WinEvent.Shown => (st, [GameCall.imguiHandleEvent])
  | SDLEvent.Window WinEvent.Hidden => (st, [GameCall.imguiHandleEvent])
  | SDLEvent.Window (WinEvent.SizeChanged w h) =>
    let sw : ℚ := ((max w 1 : Int) : ℚ)
    let sh : ℚ := ((max h 1 : Int) : ℚ)
    let st1 := { st with screenSize := (sw, sh) }
    let st2 :=
      if st1.rendererPresent then { st1 with displaySize := (sw, sh) } else st1
    (st2, [GameCall.imguiHandleEvent, GameCall.handleResize])
  | SDLEvent.Window WinEvent.OtherWindow => (st, [GameCall.imguiHandleEvent])
  | SDLEvent.KeyDown none _ => (st, [GameCall.imguiHandleEvent])
  | SDLEvent.KeyDown (some sc) isRep =>
    match conv_scancode sc with
    | some k =>
      ({ st with keyboard := fun k2 => if k2 = k then true else st.keyboard k2 },
       [GameCall.imguiHandleEvent, GameCall.keyDownEvent k isRep])
    | none => (st, [GameCall.imguiHandleEvent])
  | SDLEvent.KeyUp none => (st, [GameCall.imguiHandleEvent])
  | SDLEvent.KeyUp (some sc) =>
    match conv_scancode sc with
    | some k =>
      ({ st with keyboard := fun k2 => if k2 = k then false else st.keyboard k2 },
       [GameCall.imguiHandleEvent])
    | none => (st, [GameCall.imguiHandleEvent])
  | SDLEvent.OtherEvent => (st, [GameCall.imguiHandleEvent])

/-- Draining the event queue: `processEvent` applied to each pending event
in FIFO order, threading the state and concatenating the call traces. -/
def processEvents (st : LoopState) : List SDLEvent → LoopState × List GameCall
  | [] => (st, [])
  | ev :: rest =>
    let r1 := processEvent st ev
    let r2 := processEvents r1.1 rest
    (r2.1, r1.2 ++ r2.2)

/-- One iteration of the `loop` in `SDL2EventLoop::run`: drain events, call
`game.update` (abstracted as `update`, the game's arbitrary effect on the
loop-visible state), then test `state.shutdown` — on `true` the loop breaks
right there; otherwise swap in `next_scene` when present (scene `init`,
`loops = 0`, `frame_time = 0.0`), then `prepare_frame` and `game.draw`.
Returns the final state, the call trace, and whether the loop broke. -/
def iterate (update : LoopState → LoopState) (events : List SDLEvent)
    (st : LoopState) : LoopState × List GameCall × Bool :=
  let pe := processEvents st events
  let st2 := update pe.1
  let calls2 := pe.2 ++ [GameCall.updateCall]
  if st2.shutdown then (st2, calls2, true)
  else
    let r3 :=
      if st2.nextScene then
        ({ st2 with nextScene := false, loops := 0, frameTime := 0 },
         calls2 ++ [GameCall.sceneInit])
      else (st2, calls2)
    (r3.1, r3.2 ++ [GameCall.prepareFrame, GameCall.drawCall], false)

/-- `min3` from `backend_sdl2.rs`:
`if x < y && x < z { x } else if y < z { y } else { z }`. -/
def min3 (x y z : ℚ) : ℚ :=
  if x < y ∧ x < z then x else if y < z then y else z

/-- `max3` from `backend_sdl2.rs`:
`if x > y && x > z { x } else if y > z { y } else { z }`. -/
def max3 (x y z : ℚ) : ℚ :=
  if y < x ∧ z < x then x else if z < y then y else z

/-- An imgui draw vertex: `{pos: [f32;2], uv: [f32;2], col: [u8;4]}`. -/
structure ImVertex where
  posX : ℚ
  posY : ℚ
  uvX : ℚ
  uvY : ℚ
  colR : Nat
  colG : Nat
  colB : Nat
  colA : Nat
  deriving DecidableEq, Repr

/-- Vertex used where the source would index out of bounds (the source
panics there; the claims concern in-bounds accesses only). -/
def dfltImVertex : ImVertex :=
  { posX := 0, posY := 0, uvX := 0, uvY := 0, colR := 0, colG := 0, colB := 0, colA := 0 }

/-- `draw_list.vtx_buffer()[vtx_offset + idx_buffer[pos] as usize]`. -/
def imVtx (vtx : List ImVertex) (idx : List Nat) (vtxOff pos : Nat) : ImVertex :=
  vtx.getD (vtxOff + idx.getD pos 0) dfltImVertex

/-- The canvas operations `render_imgui` issues for one triangle group: a
textured rect blit (`canvas.copy` with colour/alpha modulation) or a filled
RGBA triangle (`filledPolygonRGBA`). -/
inductive ImDrawOp where
  | blit (src dest : SDLRect) (colR colG colB colA : Nat)
  | fillTriangle (x1 y1 x2 y2 x3 y3 : Int) (colR colG colB colA : Nat)
  deriving DecidableEq, Repr

/-- The `is_rect` conjunction of `render_imgui`: every one of the six
vertices has `x ∈ {min.x, max.x}` and `y ∈ {min.y, max.y}`, with `min`/`max`
computed by `min3`/`max3` over `v1..v3`. -/
def gridCheck (v1 v2 v3 v4 v5 v6 : ImVertex) : Bool :=
  let min0 := min3 v1.posX v2.posX v3.posX
  let min1 := min3 v1.posY v2.posY v3.posY
  let max0 := max3 v1.posX v2.posX v3.posX
  let max1 := max3 v1.posY v2.posY v3.posY
  (v1.posX == min0 || v1.posX == max0) &&
  (v1.posY == min1 || v1.posY == max1) &&
  (v2.posX == min0 || v2.posX == max0) &&
  (v2.posY == min1 || v2.posY == max1) &&
  (v3.posX == min0 || v3.posX == max0) &&
  (v3.posY == min1 || v3.posY == max1) &&
  (v4.posX == min0 || v4.posX == max0) &&
  (v4.posY == min1 || v4.posY == max1) &&
  (v5.posX == min0 || v5.posX == max0) &&
  (v5.posY == min1 || v5.posY == max1) &&
  (v6.posX == min0 || v6.posX == max0) &&
  (v6.posY == min1 || v6.posY == max1)

/-- The coalesced-quad blit of `render_imgui`: UV bounding rect over
`v1..v3` scaled by the registered texture's dimensions as the source,
`(min..max)` of `v1..v3` positions as the destination, modulated by
`v1.col`. -/
def blitOpOf (w h : Nat) (v1 v2 v3 : ImVertex) : ImDrawOp :=
  let min0 := min3 v1.posX v2.posX v3.posX
  let min1 := min3 v1.posY v2.posY v3.posY
  let max0 := max3 v1.posX v2.posX v3.posX
  let max1 := max3 v1.posY v2.posY v3.posY
  let tp0 := min3 v1.uvX v2.uvX v3.uvX
  let tp1 := min3 v1.uvY v2.uvY v3.uvY
  let tp2 := max3 v1.uvX v2.uvX v3.uvX
  let tp3 := max3 v1.uvY v2.uvY v3.uvY
  ImDrawOp.blit
    { x := i32ofRat (tp0 * (w : ℚ)), y := i32ofRat (tp1 * (h : ℚ))
      w := u32ofRat ((tp2 - tp0) * (w : ℚ)), h := u32ofRat ((tp3 - tp1) * (h : ℚ)) }
    { x := i32ofRat min0, y := i32ofRat min1
      w := u32ofRat (max0 - min0), h := u32ofRat (max1 - min1) }
    v1.colR v1.colG v1.colB v1.colA

/-- The triangle-path fill of `render_imgui`: each position biased by `-0.5`
and cast to `i16` (`vert_x`/`vert_y`), coloured by `v1.col`. -/
def triOpOf (v1 v2 v3 : ImVertex) : ImDrawOp :=
  ImDrawOp.fillTriangle
    (i16ofRat (v1.posX - 1/2)) (i16ofRat (v1.posY - 1/2))
    (i16ofRat (v2.posX - 1/2)) (i16ofRat (v2.posY - 1/2))
    (i16ofRat (v3.posX - 1/2)) (i16ofRat (v3.posY - 1/2))
    v1.colR v1.colG v1.colB v1.colA

/-- One pass of the triangle loop in `render_imgui`'s `Elements` branch at
group index `k` (loop counter `i = 3·k`). State: the `is_rect` skip flag and
the canvas operations issued so far. When the flag is set the group is
skipped and the flag cleared. Otherwise `v1..v3` are read; when at least six
indices remain (`i < count - 3`) the paired triangle `v4..v6` is read and
the `is_rect` grid test decides between one textured blit (flag set, pairing
skipped next pass) and the filled-triangle path; with fewer indices the
triangle path is taken. Either op is issued only when `texture_id` is in the
imgui texture registry (`tex` is the registered texture's dimensions). -/
def triStep (vtx : List ImVertex) (idx : List Nat) (count vtxOff idxOff : Nat)
    (tex : Option (Nat × Nat)) (st : Bool × List ImDrawOp) (k : Nat) :
    Bool × List ImDrawOp :=
  if st.1 then (false, st.2)
  else
    let i := 3 * k
    let v1 := imVtx vtx idx vtxOff (idxOff + i)
    let v2 := imVtx vtx idx vtxOff (idxOff + i + 1)
    let v3 := imVtx vtx idx vtxOff (idxOff + i + 2)
    if i < count - 3 then
      let v4 := imVtx vtx idx vtxOff (idxOff + i + 3)
      let v5 := imVtx vtx idx vtxOff (idxOff + i + 4)
      let v6 := imVtx vtx idx vtxOff (idxOff + i + 5)
      if gridCheck v1 v2 v3 v4 v5 v6 then
        match tex with
        | some wh => (true, st.2 ++ [blitOpOf wh.1 wh.2 v1 v2 v3])
        | none => (true, st.2)
      else
        match tex with
        | some _ => (false, st.2 ++ [triOpOf v1 v2 v3])
        | none => (false, st.2)
    else
      match tex with
      | some _ => (false, st.2 ++ [triOpOf v1 v2 v3])
      | none => (false, st.2)

/-- The whole triangle walk of one `Elements` command:
`for i in (0..count).step_by(3)` is the fold of `triStep` over the group
indices `k = 0, 1, …` with `3·k < count`, starting with the skip flag clear
and no operations issued. -/
def renderElements (vtx : List ImVertex) (idx : List Nat)
    (count vtxOff idxOff : Nat) (tex : Option (Nat × Nat)) : List ImDrawOp :=
  ((List.range ((count + 2) / 3)).foldl
    (triStep vtx idx count vtxOff idxOff tex) (false, [])).2

/-- When every `canvas.copy` succeeds, the draw loop issues one blit per
buffered command, in buffer order, and returns `Ok(())`. -/
theorem drawLoop_all_ok (copy : Blit → Except String Unit) (blend : SDLBlendMode)
    (hcopy : ∀ b, copy b = Except.ok ()) :
    ∀ commands : List SpriteBatchCommand,
      drawLoop copy blend commands = (commands.map (commandToBlit blend), Except.ok ())
  | [] => rfl
  | command :: rest => by
    simp only [drawLoop, hcopy, List.map_cons]
    rw [drawLoop_all_ok copy blend hcopy rest]

/-- C6: the blend-mode mapping is total and functional on the engine's
`BlendMode` enumeration — `Alpha ↦ Blend`, `Add ↦ Add`, `Multiply ↦ Mod`,
no further values are representable, and `set_blend_mode` stores exactly the
mapped mode and always returns `Ok(())`. -/
theorem C6_blend_mode_total :
    blendModeMap BlendMode.Alpha = SDLBlendMode.Blend ∧
    blendModeMap BlendMode.Add = SDLBlendMode.Add ∧
    blendModeMap BlendMode.Multiply = SDLBlendMode.Mod ∧
    (∀ b : BlendMode, b = BlendMode.Alpha ∨ b = BlendMode.Add ∨ b = BlendMode.Multiply) ∧
    (∀ (stored : SDLBlendMode) (b : BlendMode),
      set_blend_mode stored b = (blendModeMap b, Except.ok ())) :=
  ⟨rfl, rfl, rfl, fun b => by cases b <;> simp, fun _ _ => rfl⟩

/-- C10: `EngineConstants::defaults` is deterministic, its two animation
arrays hold exactly 12 rectangles each, and the manual `Clone`
implementation reproduces every field (`my_char`, `booster`, `tex_sizes`). -/
theorem C10_constants_clone :
    (∀ u v : Unit, EngineConstants.defaults u = EngineConstants.defaults v) ∧
    (EngineConstants.defaults ()).my_char.animations_left.length = 12 ∧
    (EngineConstants.defaults ()).my_char.animations_right.length = 12 ∧
    (∀ c : EngineConstants, c.clone = c) :=
  ⟨fun u v => by cases u; cases v; rfl, rfl, rfl, fun c => by cases c; rfl⟩

/-- C9: `SDL2Texture::draw` on a texture whose native handle is absent
returns `Ok(())` at once, issues no blits, and leaves the texture — its
command buffer included — unchanged, whatever is buffered. -/
theorem C9_draw_without_handle (copy : Blit → Except String Unit)
    (blend : SDLBlendMode) (t : SDL2Texture) (h : t.texture = none) :
    t.draw copy blend = ([], Except.ok (), t) := by
  unfold SDL2Texture.draw
  rw [h]

/-- A texture with a released native handle and three buffered commands,
for exercising `draw` without a handle. -/
def texReleased : SDL2Texture :=
  { texture := none
    width := 16
    height := 16
    commands :=
    [ SpriteBatchCommand.DrawRect
        { left := 0, top := 0, right := 16, bottom := 16 }
        { left := 10, top := 10, right := 26, bottom := 26 }
    , SpriteBatchCommand.DrawRectTinted
        { left := 0, top := 0, right := 8, bottom := 8 }
        { left := 1, top := 2, right := 9, bottom := 10 }
        { r := 0, g := 255, b := 0, a := 128 }
    , SpriteBatchCommand.DrawRect
        { left := 8, top := 8, right := 16, bottom := 16 }
        { left := 0, top := 0, right := 8, bottom := 8 } ] }

/-- A `canvas.copy` oracle on which every copy succeeds. -/
def copyAlwaysOk : Blit → Except String Unit := fun _ => Except.ok ()

/-- C9 witness: `draw` on the concrete released texture with three buffered
commands issues no blits, returns `Ok(())`, and leaves the texture intact. -/
theorem C9_draw_without_handle_witness :
    texReleased.texture = none ∧
    texReleased.draw copyAlwaysOk SDLBlendMode.Blend = ([], Except.ok (), texReleased) :=
  ⟨rfl, C9_draw_without_handle copyAlwaysOk SDLBlendMode.Blend texReleased rfl⟩

/-- A texture holding a live native handle (used for the render-target and
command-buffer claims). -/
def texLive : SDL2Texture :=
  { texture := some ()
    width := 32
    height := 32
    commands := [] }

/-- C5: evaluation of the code at the failing input. When the driver rejects
`SDL_SetRenderTarget` (nonzero return), `set_raw_target` produces
`Err(RenderError(message))`, yet `set_render_target` discards that result in
every branch and returns `Ok(())` — for a live texture, a handleless texture
and `None` alike. -/
theorem C5_set_render_target_swallows_error :
    set_raw_target (-1) "driver failure" =
      Except.error (GameError.RenderError "driver failure") ∧
    set_render_target (-1) "driver failure" (some texLive) = Except.ok () ∧
    set_render_target (-1) "driver failure" (some texReleased) = Except.ok () ∧
    set_render_target (-1) "driver failure" none = Except.ok () :=
  ⟨rfl, rfl, rfl, rfl⟩

/-- A sample untinted sprite-batch command. -/
def cmdA : SpriteBatchCommand :=
  SpriteBatchCommand.DrawRect
    { left := 0, top := 0, right := 16, bottom := 16 }
    { left := 10, top := 10, right := 26, bottom := 26 }

/-- A sample tinted sprite-batch command. -/
def cmdB : SpriteBatchCommand :=
  SpriteBatchCommand.DrawRectTinted
    { left := 0, top := 0, right := 8, bottom := 8 }
    { left := 1, top := 2, right := 9, bottom := 10 }
    { r := 0, g := 255, b := 0, a := 128 }

/-- C2 counterexample: quantified over every texture the claim is false —
on a texture whose native handle is absent, `add`, `add`, `draw` issues no
blit at all (neither the two just added nor the rest of the non-empty
buffer is flushed). -/
theorem C2_counterexample :
    (((texReleased.add cmdA).add cmdB).draw copyAlwaysOk
        SDLBlendMode.Blend).1 = [] ∧
    ((texReleased.add cmdA).add cmdB).commands ≠ [] ∧
    ¬ ((((texReleased.add cmdA).add cmdB).draw copyAlwaysOk
        SDLBlendMode.Blend).1.length = 2) := by
  refine ⟨rfl, ?_, ?_⟩
  · intro h
    simp [SDL2Texture.add, texReleased] at h
  · intro h
    simp [SDL2Texture.draw, SDL2Texture.add, texReleased] at h

/-- C2 amended: for every texture whose native handle is present and whose
driver accepts each copy, `add` appends one command to the buffer, `add`,
`add`, `draw` issues one blit per buffered command in buffer order (so two
new blits, last, in order), `draw` returns `Ok(())` and leaves the texture —
the command buffer included — unchanged, `clear` empties the buffer, and
`draw` after `clear` issues no blits. -/
theorem C2_amended (t : SDL2Texture) (copy : Blit → Except String Unit)
    (blend : SDLBlendMode) (a b : SpriteBatchCommand)
    (hh : t.texture = some ())
    (hcopy : ∀ x, copy x = Except.ok ()) :
    (t.add a).commands = t.commands ++ [a] ∧
    (((t.add a).add b).draw copy blend).1 =
      (t.commands ++ [a, b]).map (commandToBlit blend) ∧
    (((t.add a).add b).draw copy blend).2.1 = Except.ok () ∧
    (((t.add a).add b).draw copy blend).2.2 = (t.add a).add b ∧
    (((t.add a).add b).clear).commands = [] ∧
    ((((t.add a).add b).clear).draw copy blend).1 = [] := by
  rcases t with ⟨tex, tw, th, cmds⟩
  simp only [SDL2Texture.texture] at hh
  subst hh
  refine ⟨rfl, ?_, ?_, ?_, rfl, ?_⟩ <;>
    simp [SDL2Texture.add, SDL2Texture.clear, SDL2Texture.draw,
      drawLoop_all_ok copy blend hcopy]

/-- C2 witness: the amended claim evaluated on the concrete live texture and
the two sample commands. -/
theorem C2_amended_witness :
    texLive.texture = some () ∧
    (((texLive.add cmdA).add cmdB).draw copyAlwaysOk SDLBlendMode.Blend).1 =
      (texLive.commands ++ [cmdA, cmdB]).map (commandToBlit SDLBlendMode.Blend) ∧
    ((((texLive.add cmdA).add cmdB).clear).draw copyAlwaysOk
      SDLBlendMode.Blend).1 = [] :=
  ⟨rfl,
   (C2_amended texLive copyAlwaysOk SDLBlendMode.Blend cmdA cmdB rfl
     (fun _ => rfl)).2.1,
   (C2_amended texLive copyAlwaysOk SDLBlendMode.Blend cmdA cmdB rfl
     (fun _ => rfl)).2.2.2.2.2⟩

/-- A concrete loop-visible state: fresh 640×480 window, no latch, renderer
present, no keys held. -/
def st0 : LoopState :=
  { shutdown := false
    nextScene := false
    screenSize := (640, 480)
    displaySize := (640, 480)
    rendererPresent := true
    keyboard := fun _ => false
    loops := 0
    frameTime := 0 }

/-- C7: a window size-change event with dimensions `(w, h)` sets
`ctx.screen_size` to `(max(w,1), max(h,1))` as floats, sets imgui's display
size to the same pair, and the handler's trace is the imgui event forward
followed by exactly one `game.handle_resize` call. -/
theorem C7_resize_clamping (st : LoopState) (w h : Int)
    (hr : st.rendererPresent = true) :
    processEvent st (SDLEvent.Window (WinEvent.SizeChanged w h)) =
      ({ st with screenSize := (((max w 1 : Int) : ℚ), ((max h 1 : Int) : ℚ))
                 displaySize := (((max w 1 : Int) : ℚ), ((max h 1 : Int) : ℚ)) },
       [GameCall.imguiHandleEvent, GameCall.handleResize]) := by
  simp [processEvent, hr]

/-- C7 witness: a resize to `(0, 720)` on the concrete state yields
`screen_size = (1.0, 720.0)` and the same display size. -/
theorem C7_resize_clamping_witness :
    st0.rendererPresent = true ∧
    (processEvent st0 (SDLEvent.Window (WinEvent.SizeChanged 0 720))).1.screenSize =
      ((1 : ℚ), (720 : ℚ)) ∧
    (processEvent st0 (SDLEvent.Window (WinEvent.SizeChanged 0 720))).1.displaySize =
      ((1 : ℚ), (720 : ℚ)) := by
  refine ⟨rfl, ?_, ?_⟩ <;> rw [C7_resize_clamping st0 0 720 rfl] <;> norm_num

/-- C8: key-down with a mapped scancode dispatches exactly one
`game.key_down_event(k, repeat)` and sets the keyboard-context bit for `k`;
key-down with an unmapped scancode leaves the state untouched and dispatches
nothing beyond the imgui forward; key-up with a mapped scancode clears the
bit and dispatches no per-key event. -/
theorem C8_key_translation (st : LoopState) (sc : SDLScancode) (rep : Bool) :
    (∀ k, conv_scancode sc = some k →
      processEvent st (SDLEvent.KeyDown (some sc) rep) =
        ({ st with keyboard := fun k2 => if k2 = k then true else st.keyboard k2 },
         [GameCall.imguiHandleEvent, GameCall.keyDownEvent k rep]) ∧
      (processEvent st (SDLEvent.KeyDown (some sc) rep)).1.keyboard k = true) ∧
    (conv_scancode sc = none →
      processEvent st (SDLEvent.KeyDown (some sc) rep) =
        (st, [GameCall.imguiHandleEvent])) ∧
    (∀ k, conv_scancode sc = some k →
      processEvent st (SDLEvent.KeyUp (some sc)) =
        ({ st with keyboard := fun k2 => if k2 = k then false else st.keyboard k2 },
         [GameCall.imguiHandleEvent]) ∧
      (processEvent st (SDLEvent.KeyUp (some sc))).1.keyboard k = false) := by
  refine ⟨fun k hk => ⟨?_, ?_⟩, fun hn => ?_, fun k hk => ⟨?_, ?_⟩⟩
  · simp [processEvent, hk]
  · simp [processEvent, hk]
  · simp [processEvent, hn]
  · simp [processEvent, hk]
  · simp [processEvent, hk]

/-- C8 witness: platform scancode `A` with `repeat = true` dispatches exactly
one `key_down_event(ScanCode::A, true)` and sets the bit; its key-up clears
the bit. -/
theorem C8_key_translation_witness :
    conv_scancode SDLScancode.A = some ScanCode.A ∧
    processEvent st0 (SDLEvent.KeyDown (some SDLScancode.A) true) =
      ({ st0 with keyboard := fun k2 => if k2 = ScanCode.A then true else st0.keyboard k2 },
       [GameCall.imguiHandleEvent, GameCall.keyDownEvent ScanCode.A true]) ∧
    (processEvent st0 (SDLEvent.KeyDown (some SDLScancode.A) true)).1.keyboard
      ScanCode.A = true ∧
    (processEvent st0 (SDLEvent.KeyUp (some SDLScancode.A))).1.keyboard
      ScanCode.A = false :=
  ⟨rfl,
   ((C8_key_translation st0 SDLScancode.A true).1 ScanCode.A rfl).1,
   ((C8_key_translation st0 SDLScancode.A true).1 ScanCode.A rfl).2,
   ((C8_key_translation st0 SDLScancode.A true).2.2 ScanCode.A rfl).2⟩

/-- Event dispatch never issues the frame-tail calls: `prepare_frame` and
`game.draw` do not occur in any single event's trace. -/
theorem processEvent_no_frame_calls (st : LoopState) (ev : SDLEvent) :
    GameCall.prepareFrame ∉ (processEvent st ev).2 ∧
    GameCall.drawCall ∉ (processEvent st ev).2 := by
  rcases ev with _ | w | ⟨sc, r⟩ | sc | _
  · simp [processEvent]
  · cases w <;> simp [processEvent]
  · rcases sc with _ | sc
    · simp [processEvent]
    · rcases hc : conv_scancode sc with _ | k <;> simp [processEvent, hc]
  · rcases sc with _ | sc
    · simp [processEvent]
    · rcases hc : conv_scancode sc with _ | k <;> simp [processEvent, hc]
  · simp [processEvent]

/-- Draining the whole event queue never issues `prepare_frame` or
`game.draw`. -/
theorem processEvents_no_frame_calls :
    ∀ (events : List SDLEvent) (st : LoopState),
      GameCall.prepareFrame ∉ (processEvents st events).2 ∧
      GameCall.drawCall ∉ (processEvents st events).2
  | [], st => by simp [processEvents]
  | ev :: rest, st => by
    have h1 := processEvent_no_frame_calls st ev
    have h2 := processEvents_no_frame_calls rest (processEvent st ev).1
    simp only [processEvents, List.mem_append]
    exact ⟨fun h => h.elim h1.1 h2.1, fun h => h.elim h1.2 h2.2⟩

/-- C4 counterexample: a frame in which the shutdown latch is set during
event processing (a `Quit` event) terminates the loop without that
iteration performing `prepare_frame` or `game.draw` — the frame does not
complete, contradicting the claim. -/
theorem C4_counterexample :
    (iterate id [SDLEvent.Quit] st0).2.2 = true ∧
    GameCall.drawCall ∉ (iterate id [SDLEvent.Quit] st0).2.1 ∧
    GameCall.prepareFrame ∉ (iterate id [SDLEvent.Quit] st0).2.1 := by
  refine ⟨rfl, ?_, ?_⟩ <;> decide

/-- C4 amended: the shutdown latch is consulted directly after
`game.update`, in the middle of the iteration — not at its bottom. When the
latch is set once `update` returns (whether by an event or by the game
code), the loop breaks immediately: the iteration's trace is exactly the
event dispatches followed by the one `update` call, and contains neither
`prepare_frame` nor `game.draw`; the scene swap is also skipped. -/
theorem C4_shutdown_midframe (update : LoopState → LoopState)
    (events : List SDLEvent) (st : LoopState)
    (h : (update (processEvents st events).1).shutdown = true) :
    iterate update events st =
      (update (processEvents st events).1,
       (processEvents st events).2 ++ [GameCall.updateCall], true) ∧
    GameCall.prepareFrame ∉ (processEvents st events).2 ++ [GameCall.updateCall] ∧
    GameCall.drawCall ∉ (processEvents st events).2 ++ [GameCall.updateCall] := by
  have hnf := processEvents_no_frame_calls events st
  refine ⟨?_, ?_, ?_⟩
  · simp [iterate, h]
  · simp only [List.mem_append]
    exact fun h2 => h2.elim hnf.1 (by simp)
  · simp only [List.mem_append]
    exact fun h2 => h2.elim hnf.2 (by simp)

/-- C4 witness: the amended claim evaluated on the concrete run — one `Quit`
event, identity `update` — where the break happens right after `update`. -/
theorem C4_shutdown_midframe_witness :
    (id (processEvents st0 [SDLEvent.Quit]).1).shutdown = true ∧
    iterate id [SDLEvent.Quit] st0 =
      (id (processEvents st0 [SDLEvent.Quit]).1,
       (processEvents st0 [SDLEvent.Quit]).2 ++ [GameCall.updateCall], true) :=
  ⟨rfl, (C4_shutdown_midframe id [SDLEvent.Quit] st0 rfl).1⟩

/-- C3 counterexample: `conv_scancode` is not injective on its mapped
subset — the distinct platform scancodes `PrintScreen` and `SysReq` both map
to the engine scancode `Sysrq`. -/
theorem C3_counterexample :
    SDLScancode.PrintScreen ≠ SDLScancode.SysReq ∧
    conv_scancode SDLScancode.PrintScreen = some ScanCode.Sysrq ∧
    conv_scancode SDLScancode.SysReq = some ScanCode.Sysrq :=
  ⟨by decide, rfl, rfl⟩

set_option synthInstance.maxHeartbeats 1000000 in
set_option synthInstance.maxSize 2048 in
set_option maxHeartbeats 4000000 in
set_option maxRecDepth 4096 in
/-- C3 amended: `conv_scancode` is injective on its mapped subset except for
exactly three collision pairs — `{PrintScreen, SysReq} ↦ Sysrq`,
`{KpEnter, Return2} ↦ NumpadEnter`, `{Mute, AudioMute} ↦ Mute`; any two
distinct scancodes mapping to the same engine scancode form one of these
pairs. -/
theorem C3_injective_except_collisions :
    ∀ c1 c2 : SDLScancode, c1 ≠ c2 →
      conv_scancode c1 = conv_scancode c2 →
      (conv_scancode c1).isSome = true →
      ((c1 = SDLScancode.PrintScreen ∧ c2 = SDLScancode.SysReq) ∨
       (c1 = SDLScancode.SysReq ∧ c2 = SDLScancode.PrintScreen) ∨
       (c1 = SDLScancode.KpEnter ∧ c2 = SDLScancode.Return2) ∨
       (c1 = SDLScancode.Return2 ∧ c2 = SDLScancode.KpEnter) ∨
       (c1 = SDLScancode.Mute ∧ c2 = SDLScancode.AudioMute) ∨
       (c1 = SDLScancode.AudioMute ∧ c2 = SDLScancode.Mute)) := by
  decide

/-- C3 witness: the amended claim evaluated at the concrete collision
`(PrintScreen, SysReq)`. -/
theorem C3_injective_except_collisions_witness :
    SDLScancode.PrintScreen ≠ SDLScancode.SysReq ∧
    conv_scancode SDLScancode.PrintScreen = conv_scancode SDLScancode.SysReq ∧
    (conv_scancode SDLScancode.PrintScreen).isSome = true ∧
    ((SDLScancode.PrintScreen = SDLScancode.PrintScreen ∧
      SDLScancode.SysReq = SDLScancode.SysReq) ∨
     (SDLScancode.PrintScreen = SDLScancode.SysReq ∧
      SDLScancode.SysReq = SDLScancode.PrintScreen) ∨
     (SDLScancode.PrintScreen = SDLScancode.KpEnter ∧
      SDLScancode.SysReq = SDLScancode.Return2) ∨
     (SDLScancode.PrintScreen = SDLScancode.Return2 ∧
      SDLScancode.SysReq = SDLScancode.KpEnter) ∨
     (SDLScancode.PrintScreen = SDLScancode.Mute ∧
      SDLScancode.SysReq = SDLScancode.AudioMute) ∨
     (SDLScancode.PrintScreen = SDLScancode.AudioMute ∧
      SDLScancode.SysReq = SDLScancode.Mute)) :=
  ⟨by decide, rfl, rfl,
   C3_injective_except_collisions SDLScancode.PrintScreen SDLScancode.SysReq
     (by decide) rfl rfl⟩

/-- C1: for a triangle considered for rectangle coalescing (skip flag clear,
at least six indices remaining), if the six vertices fail the
`{min,max}.x × {min,max}.y` grid test the interpreter takes the
filled-triangle path — positions biased by `-0.5` and cast to `i16`, drawn
only when the texture id is registered — and does not set the skip flag, so
the paired triangle is not skipped; only when all six vertices pass the grid
test does it emit a single textured blit and set the flag that skips the
paired triangle. -/
theorem C1_rect_coalesce (vtx : List ImVertex) (idx : List Nat)
    (count vtxOff idxOff : Nat) (tex : Option (Nat × Nat))
    (ops : List ImDrawOp) (k : Nat)
    (v1 v2 v3 v4 v5 v6 : ImVertex)
    (h1 : v1 = imVtx vtx idx vtxOff (idxOff + 3 * k))
    (h2 : v2 = imVtx vtx idx vtxOff (idxOff + 3 * k + 1))
    (h3 : v3 = imVtx vtx idx vtxOff (idxOff + 3 * k + 2))
    (h4 : v4 = imVtx vtx idx vtxOff (idxOff + 3 * k + 3))
    (h5 : v5 = imVtx vtx idx vtxOff (idxOff + 3 * k + 4))
    (h6 : v6 = imVtx vtx idx vtxOff (idxOff + 3 * k + 5))
    (hpair : 3 * k < count - 3) :
    (gridCheck v1 v2 v3 v4 v5 v6 = false →
      triStep vtx idx count vtxOff idxOff tex (false, ops) k =
        (false, ops ++ (match tex with
          | some _ => [triOpOf v1 v2 v3]
          | none => []))) ∧
    (gridCheck v1 v2 v3 v4 v5 v6 = true →
      triStep vtx idx count vtxOff idxOff tex (false, ops) k =
        (true, ops ++ (match tex with
          | some wh => [blitOpOf wh.1 wh.2 v1 v2 v3]
          | none => []))) := by
  subst h1 h2 h3 h4 h5 h6
  constructor
  · intro hg
    cases tex with
    | none => simp [triStep, hpair, hg]
    | some wh => simp [triStep, hpair, hg]
  · intro hg
    cases tex with
    | none => simp [triStep, hpair, hg]
    | some wh => simp [triStep, hpair, hg]

/-- A concrete draw list: one triangle with an off-grid vertex `(5, 0)`
paired with a second triangle, on a registered 32×32 texture. -/
def wVtx : List ImVertex :=
  [ { posX := 0, posY := 0, uvX := 0, uvY := 0
      colR := 255, colG := 255, colB := 255, colA := 255 }
  , { posX := 5, posY := 0, uvX := 1/2, uvY := 0
      colR := 255, colG := 255, colB := 255, colA := 255 }
  , { posX := 10, posY := 10, uvX := 1, uvY := 1
      colR := 255, colG := 255, colB := 255, colA := 255 }
  , { posX := 0, posY := 10, uvX := 0, uvY := 1
      colR := 255, colG := 255, colB := 255, colA := 255 } ]

/-- Index buffer of the concrete draw list: two triangles over `wVtx`. -/
def wIdx : List Nat := [0, 1, 2, 0, 2, 3]

/-- C1 witness: on the concrete off-grid triangle pair the interpreter
issues the filled triangle and leaves the skip flag clear. -/
theorem C1_rect_coalesce_witness :
    (3 * 0 < 6 - 3) ∧
    gridCheck (imVtx wVtx wIdx 0 0) (imVtx wVtx wIdx 0 1) (imVtx wVtx wIdx 0 2)
      (imVtx wVtx wIdx 0 3) (imVtx wVtx wIdx 0 4) (imVtx wVtx wIdx 0 5) = false ∧
    triStep wVtx wIdx 6 0 0 (some (32, 32)) (false, []) 0 =
      (false, [] ++ [triOpOf (imVtx wVtx wIdx 0 0) (imVtx wVtx wIdx 0 1)
        (imVtx wVtx wIdx 0 2)]) :=
  ⟨by decide, by decide,
   (C1_rect_coalesce wVtx wIdx 6 0 0 (some (32, 32)) [] 0 _ _ _ _ _ _
     rfl rfl rfl rfl rfl rfl (by decide)).1 (by decide)⟩
